import Mathlib

/-!
Verification of the terrain-data-extraction pipeline (`src/app.py`).

The development shallowly embeds the five processing stages of the Flask
application: raster clipping (`clip_raster`), meters-to-feet conversion
(`transform_to_feet`), contour generation (`generate_contours`), shapefile
to DXF conversion (`convert_shapefile_to_dxf`), point sampling
(`raster_to_points`), and the orchestrating `upload` handler together with
the shared scratch directory managed by `create_temp_dir`.

Rasters are modelled as grids of rational cell values with a geotransform,
projection string, band count, pixel data type and optional nodata
sentinel.  External GDAL/OGR primitives (gdalwarp, ContourGenerate,
ogr2ogr) are modelled as oracles supplied through an `Env` record; the
scratch directory is a name-indexed store of file contents so that the
data flow between the stages (which communicate through files in the
fixed temp directory) is represented faithfully.
-/

namespace TerrainApp

/-- Six coefficients of a GDAL geotransform, `gt[0]` … `gt[5]` as returned
by `GetGeoTransform()`. -/
structure GeoTransform where
  gt0 : ℚ
  gt1 : ℚ
  gt2 : ℚ
  gt3 : ℚ
  gt4 : ℚ
  gt5 : ℚ
deriving DecidableEq

/-- GDAL pixel data types (the subset relevant here; `gdal.GDT_Float32` is
the one the converter always requests). -/
inductive GDALDataType
  | Byte
  | Int16
  | UInt16
  | Int32
  | Float32
  | Float64
deriving DecidableEq

/-- A georeferenced raster: dimensions, band count, pixel type,
geotransform, projection, optional nodata sentinel (`GetNoDataValue()`
returns `None` ↦ `none`) and the cell values of band 1, row by row. -/
structure Raster where
  xSize : Nat
  ySize : Nat
  bands : Nat
  dtype : GDALDataType
  gt : GeoTransform
  projection : String
  nodata : Option ℚ
  cells : List (List ℚ)
deriving DecidableEq

/-- Value of cell `(x, y)` (column `x` of row `y`), the model of
`band.ReadAsArray(x, y, 1, 1)[0][0]`; out-of-range reads default to `0`. -/
def cellAt (r : Raster) (x y : Nat) : ℚ :=
  (r.cells.getD y []).getD x 0

/-- Conversion factor from meters to feet used at `app.py` line 39. -/
def mToFt : ℚ := 328084 / 100000

/-- Python exceptions that the pipeline code can raise. -/
inductive PyErr
  | fileNotFound
  | typeError
  | gdalOpenError
deriving DecidableEq

/-- Per-cell and header semantics of `transform_to_feet` (lines 25–61):
mask the cells equal to the nodata sentinel, multiply the rest by
`3.28084`, refill masked cells with the sentinel, and write a single-band
`GDT_Float32` raster with the input's geotransform and projection,
re-stamping the sentinel with `SetNoDataValue`.  When `GetNoDataValue()`
returned `None`, `SetNoDataValue(None)` raises a `TypeError`. -/
def transform_to_feet (r : Raster) : Except PyErr Raster :=
  match r.nodata with
  | none => .error .typeError
  | some nd =>
      .ok { xSize := r.xSize
            ySize := r.ySize
            bands := 1
            dtype := .Float32
            gt := r.gt
            projection := r.projection
            nodata := some nd
            cells := r.cells.map (List.map fun v => if v = nd then nd else v * mToFt) }

/-- Python's `value != nodata` where `nodata` is `band.GetNoDataValue()`:
comparing a number against `None` is always `True`. -/
def pyNe (v : ℚ) (nodata : Option ℚ) : Bool :=
  match nodata with
  | none => true
  | some nd => v != nd

/-- Record stream produced by `raster_to_points` (lines 95–116): for each
cell in row-major order (y outer, x inner), skip it when its value equals
the nodata sentinel, otherwise emit
`(gt0 + x*gt1 + y*gt2, gt3 + x*gt4 + y*gt5, value)`. -/
def raster_to_points (r : Raster) : List (ℚ × ℚ × ℚ) :=
  (List.range r.ySize).flatMap fun y =>
    (List.range r.xSize).flatMap fun x =>
      let value := cellAt r x y
      if pyNe value r.nodata then
        [(r.gt.gt0 + (x : ℚ) * r.gt.gt1 + (y : ℚ) * r.gt.gt2,
          r.gt.gt3 + (x : ℚ) * r.gt.gt4 + (y : ℚ) * r.gt.gt5,
          value)]
      else []

/-- Reference definition following the spec's words (§4.6): the valid cell
coordinates of a raster with nodata sentinel `nd`, in row-major order
(y outer, x inner). -/
def validCoords (r : Raster) (nd : ℚ) : List (Nat × Nat) :=
  (List.range r.ySize).flatMap fun y =>
    ((List.range r.xSize).filter fun x => cellAt r x y != nd).map fun x => (x, y)

/-- Reference definition following the spec's words (§4.6): one record per
valid cell, in row-major order, each record computed from the affine
transform as `(gt0 + x*gt1 + y*gt2, gt3 + x*gt4 + y*gt5, value)`. -/
def pointCloudSpec (r : Raster) (nd : ℚ) : List (ℚ × ℚ × ℚ) :=
  (validCoords r nd).map fun c =>
    (r.gt.gt0 + (c.1 : ℚ) * r.gt.gt1 + (c.2 : ℚ) * r.gt.gt2,
     r.gt.gt3 + (c.1 : ℚ) * r.gt.gt4 + (c.2 : ℚ) * r.gt.gt5,
     cellAt r c.1 c.2)

/-- Number of cells of the raster whose value is not the nodata sentinel
(the spec's record-count bound, §8). -/
def validCellCount (r : Raster) (nd : ℚ) : Nat :=
  ((List.range r.ySize).map fun y =>
    ((List.range r.xSize).filter fun x => cellAt r x y != nd).length).sum

/-- Record stream consisting of one record for every cell of the raster,
with no filtering (what `raster_to_points` degenerates to when the band
defines no nodata value). -/
def allCellRecords (r : Raster) : List (ℚ × ℚ × ℚ) :=
  (List.range r.ySize).flatMap fun y =>
    (List.range r.xSize).map fun (x : ℕ) =>
      (r.gt.gt0 + (x : ℚ) * r.gt.gt1 + (y : ℚ) * r.gt.gt2,
       r.gt.gt3 + (x : ℚ) * r.gt.gt4 + (y : ℚ) * r.gt.gt5,
       cellAt r x y)

/-- OGR field types used by `generate_contours`. -/
inductive OGRFieldType
  | OFTInteger
  | OFTReal
deriving DecidableEq

/-- OGR geometry types (the layer is created with `ogr.wkbLineString25D`,
a 3D line type whose Z ordinate carries the elevation). -/
inductive OGRGeomType
  | wkbLineString
  | wkbLineString25D
deriving DecidableEq

/-- An attribute field definition (`ogr.FieldDefn`). -/
structure FieldDefn where
  name : String
  ftype : OGRFieldType
deriving DecidableEq

/-- A traced contour feature as produced by the external
`gdal.ContourGenerate` primitive (its content is opaque to the pipeline
code, which only forwards the layer). -/
structure ContourFeature where
  fid : Int
  elev : ℚ
deriving DecidableEq

/-- A vector layer holding contour features. -/
structure ContourLayer where
  geomType : OGRGeomType
  fields : List FieldDefn
  features : List ContourFeature
deriving DecidableEq

/-- Argument record of the call
`gdal.ContourGenerate(raster_band, interval, 0, [], 1, dem_nan,
contour_shp, 0, 1)` at `app.py` line 78, whose positional parameters are
(band, contourInterval, contourBase, fixedLevels, useNoData, noDataValue,
dstLayer, idFieldIndex, elevFieldIndex). -/
structure ContourGenerateCall where
  contourInterval : ℚ
  contourBase : ℚ
  fixedLevels : List ℚ
  useNoData : Nat
  noDataValue : Option ℚ
  idFieldIndex : Nat
  elevFieldIndex : Nat
deriving DecidableEq

/-- Layer schema and collaborator call issued by `generate_contours`
(lines 63–84): a `wkbLineString25D` layer with an integer `ID` field and a
real `elev` field, and a `ContourGenerate` invocation with the given
interval (default 1), base 0, no fixed levels, nodata exclusion enabled
with the raster band's nodata value, ID field index 0 and elevation field
index 1. -/
def generate_contours (r : Raster) (interval : ℚ := 1) :
    ContourLayer × ContourGenerateCall :=
  let dem_nan := r.nodata
  ({ geomType := .wkbLineString25D
     fields := [{ name := "ID", ftype := .OFTInteger },
                { name := "elev", ftype := .OFTReal }]
     features := [] },
   { contourInterval := interval
     contourBase := 0
     fixedLevels := []
     useNoData := 1
     noDataValue := dem_nan
     idFieldIndex := 0
     elevFieldIndex := 1 })

/-- Power of two as a rational, for exponents of either sign. -/
def qpow2 (e : ℤ) : ℚ :=
  if 0 ≤ e then ((2 ^ e.toNat : ℕ) : ℚ) else (((2 ^ (-e).toNat : ℕ) : ℚ))⁻¹

/-- Floor of the base-2 logarithm of a positive rational, computed from
the bit lengths of numerator and denominator. -/
def floorLog2 (a : ℚ) : ℤ :=
  let e0 : ℤ := (a.num.natAbs.log2 : ℤ) - (a.den.log2 : ℤ)
  if qpow2 e0 ≤ a then e0 else e0 - 1

/-- Rounding to the nearest integer with ties to even, the IEEE 754
default rounding direction. -/
def roundHalfEven (q : ℚ) : ℤ :=
  let f := ⌊q⌋
  let frac := q - f
  if frac < 1/2 then f
  else if 1/2 < frac then f + 1
  else if f % 2 = 0 then f else f + 1

/-- Rounding of a rational to the nearest IEEE 754 binary32 value
(normal-range model: 24-bit significand, round to nearest, ties to even;
overflow and subnormal underflow are outside the range this pipeline's
elevation data exercises). -/
def f32round (q : ℚ) : ℚ :=
  if q = 0 then 0
  else
    let a := |q|
    let e := floorLog2 a
    let m := roundHalfEven (a * qpow2 (23 - e))
    let mag := (m : ℚ) * qpow2 (e - 23)
    if q < 0 then -mag else mag

/-- Contents of a raster band as materialized on disk: a `GDT_Float32`
band stores every written value (cells and refilled nodata sentinel alike)
rounded to binary32 precision.  This models the storage semantics of the
band created by `driver.Create(..., gdal.GDT_Float32)` at line 47. -/
def storedRaster (r : Raster) : Raster :=
  if r.dtype = .Float32 then
    { r with cells := r.cells.map (List.map f32round) }
  else r

/-- Names of the files the pipeline keeps in the shared scratch directory
`os.path.join(tempfile.gettempdir(), 'terrain_processing_temp')` created by
`create_temp_dir` (lines 118–121): the two uploaded inputs and the paths
`tmp_clip.tif`, `tmp_feet.tif`, `tmp_contours.shp`, `tmp_contours.dxf`,
`tmp_points.csv`. -/
inductive ScratchName
  | demUpload
  | kmlUpload
  | tmpClip
  | tmpFeet
  | tmpContoursShp
  | tmpContoursDxf
  | tmpPointsCsv
deriving DecidableEq

/-- Contents of a scratch file. -/
inductive FileData
  | raster (r : Raster)
  | vector (layer : ContourLayer)
  | dxf (layer : ContourLayer)
  | csv (records : List (ℚ × ℚ × ℚ))
  | blob
deriving DecidableEq

/-- The scratch directory as a finite map from file names to contents. -/
def Scratch : Type := List (ScratchName × FileData)

instance : DecidableEq Scratch := by
  unfold Scratch
  infer_instance

/-- Write (create or overwrite) a file in the scratch directory. -/
def writeFile (s : Scratch) (n : ScratchName) (d : FileData) : Scratch :=
  (n, d) :: s.filter fun p => p.1 != n

/-- Read a file from the scratch directory, `none` when absent. -/
def readFile (s : Scratch) (n : ScratchName) : Option FileData :=
  (s.find? fun p => p.1 == n).map fun p => p.2

/-- Outcomes of the external collaborator invocations for one run:
`gdalwarpResult` is the clipped raster that `gdalwarp -cutline ...
-crop_to_cutline` writes to `tmp_clip.tif`, or `none` when the tool fails
(source raster unopenable, or empty/zero-extent clip) and writes no file;
`contourFeatures` are the features `gdal.ContourGenerate` adds to the
layer (possibly partial on failure); `contourGenerateOk` is that
primitive's success status (its `CPLErr` return value); `ogr2ogrOk` tells
whether the `ogr2ogr -f DXF` subprocess succeeds and writes its output
file. -/
structure Env where
  gdalwarpResult : Option Raster
  contourFeatures : List ContourFeature
  contourGenerateOk : Bool
  ogr2ogrOk : Bool
deriving DecidableEq

/-- Model of `clip_raster` (lines 15–23): run gdalwarp (which writes
`tmp_clip.tif` when it succeeds; the `subprocess.run` exit status is not
checked), then `open(tmp_output_path, 'rb')` — raising `FileNotFoundError`
when the file does not exist — and return the file's contents. -/
def clip_raster (env : Env) (s : Scratch) : Except PyErr FileData × Scratch :=
  let s1 := match env.gdalwarpResult with
    | some r => writeFile s .tmpClip (.raster r)
    | none => s
  match readFile s1 .tmpClip with
  | some d => (.ok d, s1)
  | none => (.error .fileNotFound, s1)

/-- File-level wrapper of `transform_to_feet` (lines 25–61): write the
clipped bytes back to `tmp_clip.tif`, reopen them, convert, and write the
result to `tmp_feet.tif`.  When `GetNoDataValue()` is `None` the output
file has already been created and filled (every cell multiplied, no mask)
before `SetNoDataValue(None)` raises its `TypeError`. -/
def transform_to_feet_stage (s : Scratch) (clipped : FileData) :
    Except PyErr FileData × Scratch :=
  let s1 := writeFile s .tmpClip clipped
  match readFile s1 .tmpClip with
  | some (.raster r) =>
      match transform_to_feet r with
      | .ok out => (.ok (.raster out), writeFile s1 .tmpFeet (.raster out))
      | .error e =>
          (.error e,
           writeFile s1 .tmpFeet
             (.raster { xSize := r.xSize, ySize := r.ySize, bands := 1
                        dtype := .Float32, gt := r.gt
                        projection := r.projection, nodata := none
                        cells := r.cells.map (List.map fun v => v * mToFt) }))
  | _ => (.error .gdalOpenError, s1)

/-- File-level wrapper of `generate_contours` (lines 63–84): open
`tmp_feet.tif`, create the shapefile layer, call `ContourGenerate` — whose
return status `env.contourGenerateOk` the code never inspects — and read
the shapefile back. -/
def generate_contours_stage (env : Env) (s : Scratch) (interval : ℚ := 1) :
    Except PyErr FileData × Scratch :=
  match readFile s .tmpFeet with
  | some (.raster r) =>
      let layerSchema := (generate_contours r interval).1
      let layer := { layerSchema with features := env.contourFeatures }
      let s1 := writeFile s .tmpContoursShp (.vector layer)
      (.ok (.vector layer), s1)
  | _ => (.error .gdalOpenError, s)

/-- Model of `convert_shapefile_to_dxf` (lines 86–93): run
`ogr2ogr -f DXF -zfield elev` (unchecked exit status; it reads
`tmp_contours.shp` and writes `tmp_contours.dxf` only when it succeeds),
then read the output file, raising `FileNotFoundError` when absent. -/
def convert_shapefile_to_dxf_stage (env : Env) (s : Scratch) :
    Except PyErr FileData × Scratch :=
  let s1 :=
    if env.ogr2ogrOk then
      match readFile s .tmpContoursShp with
      | some (.vector layer) => writeFile s .tmpContoursDxf (.dxf layer)
      | _ => s
    else s
  match readFile s1 .tmpContoursDxf with
  | some d => (.ok d, s1)
  | none => (.error .fileNotFound, s1)

/-- File-level wrapper of `raster_to_points` (lines 95–116): reopen
`tmp_clip.tif` — the pre-conversion clipped raster, not `tmp_feet.tif` —
and write the sampled records to `tmp_points.csv`. -/
def raster_to_points_stage (s : Scratch) : Except PyErr FileData × Scratch :=
  match readFile s .tmpClip with
  | some (.raster r) =>
      (.ok (.csv (raster_to_points r)),
       writeFile s .tmpPointsCsv (.csv (raster_to_points r)))
  | _ => (.error .gdalOpenError, s)

/-- The five named artifacts the `upload` handler zips up (lines 148–155). -/
structure Bundle where
  clipped_dem : FileData
  clipped_dem_feet : FileData
  contours_shape_file : FileData
  contours_dxf : FileData
  pvsyst_shading_file : FileData
deriving DecidableEq

/-- Control flow of the `upload` handler (lines 127–171): save the two
uploaded files into the shared scratch directory, run the five stages in
sequence, assemble the in-memory zip bundle, and only then delete every
file of the scratch directory and remove it.  An exception raised by any
stage propagates immediately: the cleanup loop at lines 159–164 is not in
a `try`/`finally`, so on failure the scratch directory keeps whatever
files exist at that point. -/
def upload (env : Env) (s0 : Scratch) : Except PyErr Bundle × Scratch :=
  let s := writeFile (writeFile s0 .demUpload .blob) .kmlUpload .blob
  match clip_raster env s with
  | (.error e, s) => (.error e, s)
  | (.ok clipped, s) =>
  match transform_to_feet_stage s clipped with
  | (.error e, s) => (.error e, s)
  | (.ok feet, s) =>
  match generate_contours_stage env s with
  | (.error e, s) => (.error e, s)
  | (.ok shpData, s) =>
  match convert_shapefile_to_dxf_stage env s with
  | (.error e, s) => (.error e, s)
  | (.ok dxfData, s) =>
  match raster_to_points_stage s with
  | (.error e, s) => (.error e, s)
  | (.ok csvData, _) =>
      (.ok { clipped_dem := clipped
             clipped_dem_feet := feet
             contours_shape_file := shpData
             contours_dxf := dxfData
             pvsyst_shading_file := csvData },
       ([] : Scratch))

/-- Whether an `Except` computation completed without raising. -/
def exceptOk : Except PyErr Bundle → Bool
  | .ok _ => true
  | .error _ => false

/-- Concrete geotransform: origin (0,0), pixel size 1×1, no rotation. -/
def demoGT : GeoTransform :=
  { gt0 := 0, gt1 := 1, gt2 := 0, gt3 := 0, gt4 := 0, gt5 := -1 }

/-- Concrete clipped raster: 2×1 cells, one nodata cell and one valid
cell of 2 meters, sentinel −9999. -/
def demoClip : Raster :=
  { xSize := 2, ySize := 1, bands := 1, dtype := .Float32, gt := demoGT
    projection := "WGS84", nodata := some (-9999)
    cells := [[-9999, 2]] }

/-- Expected feet conversion of `demoClip`. -/
def demoFeet : Raster :=
  { xSize := 2, ySize := 1, bands := 1, dtype := .Float32, gt := demoGT
    projection := "WGS84", nodata := some (-9999)
    cells := [[-9999, 2 * mToFt]] }

/-- Concrete raster all of whose cells are the nodata sentinel. -/
def demoAllNodata : Raster :=
  { xSize := 2, ySize := 2, bands := 1, dtype := .Float32, gt := demoGT
    projection := "WGS84", nodata := some (-9999)
    cells := [[-9999, -9999], [-9999, -9999]] }

/-- Concrete raster whose band defines no nodata value. -/
def demoNoSentinel : Raster :=
  { xSize := 2, ySize := 1, bands := 1, dtype := .Float32, gt := demoGT
    projection := "WGS84", nodata := none
    cells := [[4, 7]] }

/-- Concrete all-nodata raster with a non-float pixel type. -/
def demoInt16 : Raster :=
  { xSize := 1, ySize := 1, bands := 1, dtype := .Int16, gt := demoGT
    projection := "WGS84", nodata := some (-9999)
    cells := [[-9999]] }

/-- Expected feet conversion of `demoInt16`. -/
def demoInt16Feet : Raster :=
  { xSize := 1, ySize := 1, bands := 1, dtype := .Float32, gt := demoGT
    projection := "WGS84", nodata := some (-9999)
    cells := [[-9999]] }

/-- External environment of a fully successful run on `demoClip`. -/
def envGood : Env :=
  { gdalwarpResult := some demoClip, contourFeatures := []
    contourGenerateOk := true, ogr2ogrOk := true }

/-- External environment of a run whose `gdalwarp` invocation fails
(source raster unopenable or empty/zero-extent clip): no `tmp_clip.tif`
is written. -/
def envWarpFail : Env :=
  { gdalwarpResult := none, contourFeatures := []
    contourGenerateOk := true, ogr2ogrOk := true }

/-- External environment of a run in which the `gdal.ContourGenerate`
primitive fails (returns a `CPLErr` failure status) after tracing no
features. -/
def envContourFail : Env :=
  { gdalwarpResult := some demoClip, contourFeatures := []
    contourGenerateOk := false, ogr2ogrOk := true }

/-- The contour layer produced for `demoClip`-based runs with no traced
features. -/
def demoLayer : ContourLayer :=
  { geomType := .wkbLineString25D
    fields := [{ name := "ID", ftype := .OFTInteger },
               { name := "elev", ftype := .OFTReal }]
    features := [] }

/-- Expected artifact bundle of a successful run on `demoClip`. -/
def demoBundle : Bundle :=
  { clipped_dem := .raster demoClip
    clipped_dem_feet := .raster demoFeet
    contours_shape_file := .vector demoLayer
    contours_dxf := .dxf demoLayer
    pvsyst_shading_file := .csv (raster_to_points demoClip) }

theorem getD_map_zero (f : ℚ → ℚ) (h0 : f 0 = 0) (cells : List (List ℚ))
    (x y : ℕ) :
    ((cells.map (List.map f)).getD y []).getD x 0 =
      f ((cells.getD y []).getD x 0) := by
  have hrow : ∀ (l : List ℚ) (n : ℕ), (l.map f).getD n 0 = f (l.getD n 0) := by
    intro l n
    simp only [List.getD_eq_getElem?_getD, List.getElem?_map]
    cases l[n]? <;> simp [h0]
  simp only [List.getD_eq_getElem?_getD, List.getElem?_map]
  cases cells[y]? with
  | none => simp [h0]
  | some row => simpa [List.getD_eq_getElem?_getD] using hrow row x

theorem flatMap_if_eq_map_filter {α β : Type} (l : List α) (p : α → Bool)
    (f : α → β) :
    (l.flatMap fun a => if p a then [f a] else []) = (l.filter p).map f := by
  induction l with
  | nil => rfl
  | cons a t ih =>
    by_cases h : p a <;>
      simp [List.flatMap_cons, List.filter_cons, h, ih]

theorem flatMap_pure_eq_map {α β : Type} (l : List α) (f : α → β) :
    (l.flatMap fun a => [f a]) = l.map f := by
  induction l with
  | nil => rfl
  | cons a t ih => simp [List.flatMap_cons, ih]

theorem transform_cellAt (r : Raster) (nd : ℚ) (r2 : Raster)
    (h1 : r.nodata = some nd) (h2 : transform_to_feet r = .ok r2)
    (x y : ℕ) :
    cellAt r2 x y =
      if cellAt r x y = nd then nd else cellAt r x y * mToFt := by
  simp only [transform_to_feet, h1] at h2
  injection h2 with h2
  subst h2
  have h0 : (if (0 : ℚ) = nd then nd else 0 * mToFt) = 0 := by
    by_cases hz : (0 : ℚ) = nd
    · rw [if_pos hz, ← hz]
    · rw [if_neg hz, zero_mul]
  unfold cellAt
  exact getD_map_zero _ h0 r.cells x y

theorem transform_header (r : Raster) (nd : ℚ) (r2 : Raster)
    (h1 : r.nodata = some nd) (h2 : transform_to_feet r = .ok r2) :
    r2.bands = 1 ∧ r2.dtype = .Float32 ∧ r2.xSize = r.xSize ∧
      r2.ySize = r.ySize ∧ r2.cells.length = r.cells.length ∧
      (∀ y, (r2.cells.getD y []).length = (r.cells.getD y []).length) ∧
      r2.gt = r.gt ∧ r2.projection = r.projection ∧ r2.nodata = some nd := by
  simp only [transform_to_feet, h1] at h2
  injection h2 with h2
  subst h2
  refine ⟨rfl, rfl, rfl, rfl, by simp, ?_, rfl, rfl, rfl⟩
  intro y
  simp only [List.getD_eq_getElem?_getD, List.getElem?_map]
  cases r.cells[y]? <;> simp

theorem mem_raster_to_points {r : Raster} {p : ℚ × ℚ × ℚ}
    (hp : p ∈ raster_to_points r) :
    ∃ x y, x < r.xSize ∧ y < r.ySize ∧
      pyNe (cellAt r x y) r.nodata = true ∧
      p = (r.gt.gt0 + (x : ℚ) * r.gt.gt1 + (y : ℚ) * r.gt.gt2,
           r.gt.gt3 + (x : ℚ) * r.gt.gt4 + (y : ℚ) * r.gt.gt5,
           cellAt r x y) := by
  simp only [raster_to_points, List.mem_flatMap, List.mem_range] at hp
  obtain ⟨y, hy, x, hx, hmem⟩ := hp
  cases hb : pyNe (cellAt r x y) r.nodata with
  | false =>
    rw [hb] at hmem
    simp at hmem
  | true =>
    rw [hb] at hmem
    simp only [if_true, List.mem_singleton] at hmem
    exact ⟨x, y, hx, hy, hb, hmem⟩

/-- C1: Unit conversion correctness — for every input raster cell, if its
value equals the nodata sentinel it is left untouched, otherwise it is
multiplied by 3.28084; the output is a single-band floating-point raster
with the same dimensions, geotransform and projection as the input, with
the identical nodata sentinel re-stamped. -/
theorem unit_conversion_correct (r : Raster) (nd : ℚ) (r2 : Raster)
    (h1 : r.nodata = some nd) (h2 : transform_to_feet r = .ok r2) :
    r2.bands = 1 ∧ r2.dtype = .Float32 ∧
    r2.xSize = r.xSize ∧ r2.ySize = r.ySize ∧
    r2.cells.length = r.cells.length ∧
    (∀ y, (r2.cells.getD y []).length = (r.cells.getD y []).length) ∧
    r2.gt = r.gt ∧ r2.projection = r.projection ∧
    r2.nodata = some nd ∧
    ∀ x y, cellAt r2 x y =
      if cellAt r x y = nd then cellAt r x y
      else cellAt r x y * mToFt := by
  obtain ⟨hb, hd, hx, hy, hl, hrl, hg, hp, hn⟩ := transform_header r nd r2 h1 h2
  refine ⟨hb, hd, hx, hy, hl, hrl, hg, hp, hn, ?_⟩
  intro x y
  rw [transform_cellAt r nd r2 h1 h2 x y]
  by_cases h : cellAt r x y = nd <;> simp [h]

/-- Witness for C1 at a concrete raster with one nodata cell and one
valid cell worth 2 meters. -/
theorem unit_conversion_correct_witness :
    demoClip.nodata = some (-9999) ∧
    transform_to_feet demoClip = .ok demoFeet ∧
    ∀ x y, cellAt demoFeet x y =
      if cellAt demoClip x y = -9999 then cellAt demoClip x y
      else cellAt demoClip x y * mToFt :=
  ⟨rfl, rfl,
    (unit_conversion_correct demoClip (-9999) demoFeet rfl
      rfl).2.2.2.2.2.2.2.2.2⟩

/-- C3: Round-trip of unit conversion — dividing a converted valid cell by
3.28084 returns the original value (exactly, in the idealized rational
arithmetic, hence within floating-point tolerance), and every nodata cell
is identical before and after conversion. -/
theorem conversion_round_trip (r : Raster) (nd : ℚ) (r2 : Raster)
    (h1 : r.nodata = some nd) (h2 : transform_to_feet r = .ok r2) :
    (∀ x y, cellAt r x y ≠ nd →
      cellAt r2 x y / mToFt = cellAt r x y) ∧
    (∀ x y, cellAt r x y = nd →
      cellAt r2 x y = cellAt r x y) := by
  have hm : mToFt ≠ 0 := by norm_num [mToFt]
  constructor
  · intro x y h
    rw [transform_cellAt r nd r2 h1 h2 x y, if_neg h]
    exact mul_div_cancel_right₀ _ hm
  · intro x y h
    rw [transform_cellAt r nd r2 h1 h2 x y, if_pos h, h]

/-- Witness for C3 at a concrete raster. -/
theorem conversion_round_trip_witness :
    demoClip.nodata = some (-9999) ∧
    transform_to_feet demoClip = .ok demoFeet ∧
    (∀ x y, cellAt demoClip x y ≠ -9999 →
      cellAt demoFeet x y / mToFt = cellAt demoClip x y) ∧
    (∀ x y, cellAt demoClip x y = -9999 →
      cellAt demoFeet x y = cellAt demoClip x y) :=
  ⟨rfl, rfl, conversion_round_trip demoClip (-9999) demoFeet rfl rfl⟩

/-- C8: All-nodata conversion edge case — on a raster with zero valid
cells the converter succeeds (returns a raster rather than raising) and
its output is an all-nodata raster of the same shape. -/
theorem all_nodata_conversion (r : Raster) (nd : ℚ)
    (h1 : r.nodata = some nd)
    (h2 : ∀ row ∈ r.cells, ∀ v ∈ row, v = nd) :
    ∃ r2, transform_to_feet r = .ok r2 ∧
      r2.xSize = r.xSize ∧ r2.ySize = r.ySize ∧
      r2.cells.length = r.cells.length ∧
      (∀ y, (r2.cells.getD y []).length = (r.cells.getD y []).length) ∧
      r2.nodata = some nd ∧
      ∀ row ∈ r2.cells, ∀ v ∈ row, v = nd := by
  simp only [transform_to_feet, h1]
  refine ⟨_, rfl, rfl, rfl, by simp, ?_, rfl, ?_⟩
  · intro y
    simp only [List.getD_eq_getElem?_getD, List.getElem?_map]
    cases r.cells[y]? <;> simp
  · intro row hrow v hv
    simp only [List.mem_map] at hrow
    obtain ⟨row0, hrow0, hre⟩ := hrow
    subst hre
    simp only [List.mem_map] at hv
    obtain ⟨v0, hv0, hve⟩ := hv
    subst hve
    rw [h2 row0 hrow0 v0 hv0]
    simp

/-- Witness for C8 at a concrete 2×2 all-nodata raster. -/
theorem all_nodata_conversion_witness :
    demoAllNodata.nodata = some (-9999) ∧
    (∀ row ∈ demoAllNodata.cells, ∀ v ∈ row, v = -9999) ∧
    ∃ r2, transform_to_feet demoAllNodata = .ok r2 ∧
      r2.xSize = demoAllNodata.xSize ∧ r2.ySize = demoAllNodata.ySize ∧
      r2.cells.length = demoAllNodata.cells.length ∧
      (∀ y, (r2.cells.getD y []).length =
        (demoAllNodata.cells.getD y []).length) ∧
      r2.nodata = some (-9999) ∧
      ∀ row ∈ r2.cells, ∀ v ∈ row, v = -9999 :=
  ⟨rfl, by decide,
    all_nodata_conversion demoAllNodata (-9999) rfl (by decide)⟩

/-- C10: Converted-raster precision — the converter always creates its
output with 32-bit float pixel type regardless of the input band's data
type, so both the converted cell values and the re-stamped nodata
sentinel are stored at float32 precision, and a sentinel that is not
exactly representable in float32 (such as 0.1) is rounded. -/
theorem float32_precision (r : Raster) (nd : ℚ) (r2 : Raster)
    (h1 : r.nodata = some nd) (h2 : transform_to_feet r = .ok r2) :
    r2.dtype = .Float32 ∧
    (∀ x y, cellAt (storedRaster r2) x y = f32round (cellAt r2 x y)) ∧
    (∀ x y, cellAt r x y = nd →
      cellAt (storedRaster r2) x y = f32round nd) ∧
    f32round (1 / 10) ≠ (1 / 10 : ℚ) := by
  obtain ⟨-, hd, -, -, -, -, -, -, -⟩ := transform_header r nd r2 h1 h2
  have hstored : ∀ x y,
      cellAt (storedRaster r2) x y = f32round (cellAt r2 x y) := by
    intro x y
    unfold storedRaster
    rw [if_pos hd]
    unfold cellAt
    exact getD_map_zero f32round rfl r2.cells x y
  refine ⟨hd, hstored, ?_, ?_⟩
  · intro x y h
    rw [hstored x y, transform_cellAt r nd r2 h1 h2 x y, if_pos h]
  · with_unfolding_all decide

/-- Witness for C10 at a concrete raster whose input band type is
`GDT_Int16`, showing the output is nevertheless `GDT_Float32`. -/
theorem float32_precision_witness :
    demoInt16.dtype = .Int16 ∧
    demoInt16.nodata = some (-9999) ∧
    transform_to_feet demoInt16 = .ok demoInt16Feet ∧
    demoInt16Feet.dtype = .Float32 ∧
    f32round (1 / 10) ≠ (1 / 10 : ℚ) :=
  ⟨rfl, rfl, rfl,
    (float32_precision demoInt16 (-9999) demoInt16Feet rfl rfl).1,
    (float32_precision demoInt16 (-9999) demoInt16Feet rfl rfl).2.2.2⟩

theorem sum_map_const {α : Type} (l : List α) (c : ℕ) :
    (l.map fun _ => c).sum = l.length * c := by
  induction l with
  | nil => simp
  | cons a t ih => simp [ih, Nat.succ_mul, Nat.add_comm]

/-- C2: Point sampler reference definition — the point cloud equals the
spec's reference construction (one record per cell whose value is not the
nodata sentinel, in row-major order, each record computed from the affine
transform), its record count equals the number of valid cells, and the
emitted coordinate list is strictly increasing in row-major (y outer,
x inner) order. -/
theorem point_sampler_reference (r : Raster) (nd : ℚ)
    (h : r.nodata = some nd) :
    raster_to_points r = pointCloudSpec r nd ∧
    (raster_to_points r).length = validCellCount r nd ∧
    (validCoords r nd).Pairwise
      (fun a b => a.2 < b.2 ∨ (a.2 = b.2 ∧ a.1 < b.1)) := by
  have key : raster_to_points r = pointCloudSpec r nd := by
    unfold raster_to_points pointCloudSpec validCoords
    rw [List.map_flatMap, h]
    congr 1
    funext y
    rw [List.map_map, ← flatMap_if_eq_map_filter]
    congr 1
  refine ⟨key, ?_, ?_⟩
  · rw [key]
    unfold pointCloudSpec validCoords validCellCount
    rw [List.length_map, List.length_flatMap]
    simp [Function.comp_def, List.length_map]
  · unfold validCoords
    rw [List.pairwise_flatMap]
    constructor
    · intro y hy
      rw [List.pairwise_map]
      exact ((List.pairwise_lt_range r.xSize).filter _).imp
        fun hab => Or.inr ⟨rfl, hab⟩
    · refine (List.pairwise_lt_range r.ySize).imp ?_
      intro y1 y2 h12 a ha b hb
      simp only [List.mem_map] at ha hb
      obtain ⟨xa, -, ha⟩ := ha
      obtain ⟨xb, -, hb⟩ := hb
      subst ha
      subst hb
      exact Or.inl h12

/-- Witness for C2 at a concrete raster with one valid cell. -/
theorem point_sampler_reference_witness :
    demoClip.nodata = some (-9999) ∧
    raster_to_points demoClip = pointCloudSpec demoClip (-9999) ∧
    (raster_to_points demoClip).length = validCellCount demoClip (-9999) ∧
    (validCoords demoClip (-9999)).Pairwise
      (fun a b => a.2 < b.2 ∨ (a.2 = b.2 ∧ a.1 < b.1)) :=
  ⟨rfl, point_sampler_reference demoClip (-9999) rfl⟩

/-- C9: Missing-sentinel behavior of the sampler — when the band defines
no nodata value (`GetNoDataValue()` returns `None`), the filter
`value != nodata` is true for every cell, so one record is emitted per
cell of the raster with no filtering at all. -/
theorem missing_sentinel_no_filter (r : Raster) (h : r.nodata = none) :
    raster_to_points r = allCellRecords r ∧
    (raster_to_points r).length = r.ySize * r.xSize := by
  have key : raster_to_points r = allCellRecords r := by
    unfold raster_to_points allCellRecords
    rw [h]
    congr 1
    funext y
    rw [← flatMap_pure_eq_map]
    congr 1
  refine ⟨key, ?_⟩
  rw [key]
  unfold allCellRecords
  rw [List.length_flatMap]
  simp only [Function.comp_def, List.length_map, List.length_range]
  rw [sum_map_const, List.length_range]

/-- Witness for C9 at a concrete 2×1 raster without a nodata value. -/
theorem missing_sentinel_no_filter_witness :
    demoNoSentinel.nodata = none ∧
    raster_to_points demoNoSentinel = allCellRecords demoNoSentinel ∧
    (raster_to_points demoNoSentinel).length =
      demoNoSentinel.ySize * demoNoSentinel.xSize :=
  ⟨rfl, missing_sentinel_no_filter demoNoSentinel rfl⟩

/-- C6: Contour generation parameters — the contour stage invokes the
iso-line extraction primitive with the given interval (default 1), a base
offset of 0, nodata exclusion enabled with the raster's nodata value, and
creates exactly the two attribute fields `ID` (integer, field index 0 of
the call) and `elev` (real, field index 1, also written to the Z ordinate
of the 3D `wkbLineString25D` line layer). -/
theorem contour_parameters (r : Raster) (interval : ℚ) :
    (generate_contours r interval).2.contourInterval = interval ∧
    (generate_contours r interval).2.contourBase = 0 ∧
    (generate_contours r interval).2.fixedLevels = [] ∧
    (generate_contours r interval).2.useNoData = 1 ∧
    (generate_contours r interval).2.noDataValue = r.nodata ∧
    (generate_contours r interval).2.idFieldIndex = 0 ∧
    (generate_contours r interval).2.elevFieldIndex = 1 ∧
    (generate_contours r interval).1.geomType = .wkbLineString25D ∧
    (generate_contours r interval).1.fields =
      [{ name := "ID", ftype := .OFTInteger },
       { name := "elev", ftype := .OFTReal }] ∧
    (generate_contours r).2.contourInterval = 1 :=
  ⟨rfl, rfl, rfl, rfl, rfl, rfl, rfl, rfl, rfl, rfl⟩

/-- C4: Workspace teardown — the claim that no files remain after both
successful and failed runs is violated by the code: the cleanup loop of
`upload` (lines 159–164) runs only after all five stages succeed, so a
run whose `gdalwarp` invocation fails terminates with the uploaded DEM
and KML files still present in the scratch directory, while a successful
run does clean up. -/
theorem teardown_only_on_success :
    (upload envGood []).snd = ([] : Scratch) ∧
    (upload envWarpFail []).fst = .error .fileNotFound ∧
    (upload envWarpFail []).snd =
      [(.kmlUpload, .blob), (.demUpload, .blob)] :=
  ⟨rfl, rfl, rfl⟩

/-- C5: Fail-fast — a failing clip does abort the pipeline (the missing
`tmp_clip.tif` raises `FileNotFoundError` before any later stage), but
the claim that a failure at any stage aborts the remaining pipeline with
no partial bundle is violated: `gdal.ContourGenerate`'s failure status is
never inspected, so a run whose contour extraction fails still completes
and returns a full artifact bundle. -/
theorem contour_failure_still_produces_bundle :
    (upload envWarpFail []).fst = .error .fileNotFound ∧
    envContourFail.contourGenerateOk = false ∧
    exceptOk (upload envContourFail []).fst = true ∧
    (upload envContourFail []).fst = .ok demoBundle ∧
    (upload envContourFail []).snd = ([] : Scratch) :=
  ⟨rfl, rfl, rfl, rfl, rfl⟩

/-- C7: Unit independence of the sampling branch — in every successful
run the point-cloud artifact is computed by `raster_to_points` from the
clipped raster written by `gdalwarp` (the pre-conversion artifact
`tmp_clip.tif`), so every emitted Z value is a cell value of the clipped
raster in the source's native unit, unaffected by the conversion stage
having run first. -/
theorem sampling_branch_unit_independent (env : Env) (b : Bundle)
    (s2 : Scratch) (h : upload env [] = (.ok b, s2)) :
    ∃ c : Raster, env.gdalwarpResult = some c ∧
      b.clipped_dem = .raster c ∧
      b.pvsyst_shading_file = .csv (raster_to_points c) ∧
      ∀ p ∈ raster_to_points c, ∃ x y, x < c.xSize ∧ y < c.ySize ∧
        p.2.2 = cellAt c x y := by
  obtain ⟨wr, cf, cg, og⟩ := env
  cases wr with
  | none => simp [upload, clip_raster, writeFile, readFile] at h
  | some c =>
    refine ⟨c, rfl, ?_⟩
    have hmem : ∀ p ∈ raster_to_points c, ∃ x y, x < c.xSize ∧
        y < c.ySize ∧ p.2.2 = cellAt c x y := by
      intro p hp
      obtain ⟨x, y, hx, hy, -, hpe⟩ := mem_raster_to_points hp
      exact ⟨x, y, hx, hy, by rw [hpe]⟩
    cases hnd : c.nodata with
    | none =>
      simp [upload, clip_raster, transform_to_feet_stage, transform_to_feet,
        writeFile, readFile, hnd] at h
    | some nd =>
      cases og with
      | false =>
        simp [upload, clip_raster, transform_to_feet_stage, transform_to_feet,
          generate_contours_stage, generate_contours,
          convert_shapefile_to_dxf_stage, raster_to_points_stage,
          writeFile, readFile, hnd] at h
      | true =>
        simp [upload, clip_raster, transform_to_feet_stage, transform_to_feet,
          generate_contours_stage, generate_contours,
          convert_shapefile_to_dxf_stage, raster_to_points_stage,
          writeFile, readFile, hnd] at h
        obtain ⟨hb, -⟩ := h
        subst hb
        exact ⟨rfl, rfl, hmem⟩

/-- Witness for C7: a concrete successful run on `demoClip`. -/
theorem sampling_branch_unit_independent_witness :
    upload envGood [] = (.ok demoBundle, ([] : Scratch)) ∧
    ∃ c : Raster, envGood.gdalwarpResult = some c ∧
      demoBundle.clipped_dem = .raster c ∧
      demoBundle.pvsyst_shading_file = .csv (raster_to_points c) ∧
      ∀ p ∈ raster_to_points c, ∃ x y, x < c.xSize ∧ y < c.ySize ∧
        p.2.2 = cellAt c x y :=
  ⟨rfl, sampling_branch_unit_independent envGood demoBundle [] rfl⟩

end TerrainApp
